import Mathlib

/-!
# Verification of the rdnat TCP tunneling / proxy engine

Shallow embedding of `src/main.rs`.  The inbound TCP stream is modelled as a
`List Nat` of bytes; `read_exact` fails exactly when the stream has fewer
bytes than requested (EOF / read error); writes always succeed and are
accumulated into an output byte list.  Rust `String`s are modelled as lists
of Unicode scalar values (`List Nat`), and `String::from_utf8_lossy` is
implemented faithfully as `utf8Lossy`.  Dialing a target is an environment
oracle passed in as a function.
-/

set_option maxRecDepth 100000

namespace Rdnat

/-- Model of `tokio::io::AsyncReadExt::read_exact` over a finite stream:
returns the `n` bytes read and the remaining stream, or `none` when the
stream ends before `n` bytes arrive (the read error / early-EOF case). -/
def readExact (n : Nat) (s : List Nat) : Option (List Nat × List Nat) :=
  if n ≤ s.length then some (s.take n, s.drop n) else none

theorem readExact_append (xs rest : List Nat) {n : Nat} (h : xs.length = n) :
    readExact n (xs ++ rest) = some (xs, rest) := by
  subst h
  simp [readExact, List.take_left, List.drop_left]

theorem readExact_eq_none {n : Nat} {s : List Nat} (h : s.length < n) :
    readExact n s = none := by
  simp [readExact]
  omega

/-- Is a byte a UTF-8 continuation byte (`0x80..=0xBF`)? -/
def utf8IsCont (b : Nat) : Bool := 0x80 ≤ b && b ≤ 0xBF

/-- Valid second byte of a three-byte UTF-8 sequence with lead byte `b0`
(per the table used by Rust's `core::str` validation: `E0` requires
`A0..=BF`, `ED` requires `80..=9F`, the rest require `80..=BF`). -/
def utf8Cont3Ok (b0 b1 : Nat) : Bool :=
  (b0 == 0xE0 && 0xA0 ≤ b1 && b1 ≤ 0xBF) ||
  (0xE1 ≤ b0 && b0 ≤ 0xEC && utf8IsCont b1) ||
  (b0 == 0xED && 0x80 ≤ b1 && b1 ≤ 0x9F) ||
  (0xEE ≤ b0 && b0 ≤ 0xEF && utf8IsCont b1)

/-- Valid second byte of a four-byte UTF-8 sequence with lead byte `b0`
(`F0` requires `90..=BF`, `F4` requires `80..=8F`, `F1..=F3` require
`80..=BF`). -/
def utf8Cont4Ok (b0 b1 : Nat) : Bool :=
  (b0 == 0xF0 && 0x90 ≤ b1 && b1 ≤ 0xBF) ||
  (0xF1 ≤ b0 && b0 ≤ 0xF3 && utf8IsCont b1) ||
  (b0 == 0xF4 && 0x80 ≤ b1 && b1 ≤ 0x8F)

/-- Model of `String::from_utf8_lossy` as a byte-list to scalar-list map:
well-formed sequences decode to their scalar value, every maximal ill-formed
subsequence is replaced by one U+FFFD (`0xFFFD`), resuming at the first byte
that broke the sequence. -/
def utf8Lossy : List Nat → List Nat
  | [] => []
  | b0 :: rest =>
    if b0 < 0x80 then b0 :: utf8Lossy rest
    else if 0xC2 ≤ b0 && b0 ≤ 0xDF then
      match rest with
      | [] => [0xFFFD]
      | b1 :: r2 =>
        if utf8IsCont b1 then
          (((b0 &&& 0x1F) <<< 6) ||| (b1 &&& 0x3F)) :: utf8Lossy r2
        else 0xFFFD :: utf8Lossy (b1 :: r2)
    else if 0xE0 ≤ b0 && b0 ≤ 0xEF then
      match rest with
      | [] => [0xFFFD]
      | b1 :: r2 =>
        if utf8Cont3Ok b0 b1 then
          match r2 with
          | [] => [0xFFFD, 0xFFFD]
          | b2 :: r3 =>
            if utf8IsCont b2 then
              (((b0 &&& 0xF) <<< 12) ||| ((b1 &&& 0x3F) <<< 6) ||| (b2 &&& 0x3F)) ::
                utf8Lossy r3
            else 0xFFFD :: utf8Lossy (b2 :: r3)
        else 0xFFFD :: utf8Lossy (b1 :: r2)
    else if 0xF0 ≤ b0 && b0 ≤ 0xF4 then
      match rest with
      | [] => [0xFFFD]
      | b1 :: r2 =>
        if utf8Cont4Ok b0 b1 then
          match r2 with
          | [] => [0xFFFD, 0xFFFD]
          | b2 :: r3 =>
            if utf8IsCont b2 then
              match r3 with
              | [] => [0xFFFD, 0xFFFD, 0xFFFD]
              | b3 :: r4 =>
                if utf8IsCont b3 then
                  (((b0 &&& 0x7) <<< 18) ||| ((b1 &&& 0x3F) <<< 12) |||
                    ((b2 &&& 0x3F) <<< 6) ||| (b3 &&& 0x3F)) :: utf8Lossy r4
                else 0xFFFD :: utf8Lossy (b3 :: r4)
            else 0xFFFD :: utf8Lossy (b2 :: r3)
        else 0xFFFD :: utf8Lossy (b1 :: r2)
    else 0xFFFD :: utf8Lossy rest

/-- The Unicode scalar values of a Lean string literal (used to state the
exact string constants appearing in the source). -/
def strScalars (s : String) : List Nat := s.toList.map Char.toNat

/-- UTF-8 encoding of a list of Unicode scalar values (model of
`str::as_bytes` for a string holding those scalars). -/
def utf8Encode1 (c : Nat) : List Nat :=
  if c < 0x80 then [c]
  else if c < 0x800 then [0xC0 ||| (c >>> 6), 0x80 ||| (c &&& 0x3F)]
  else if c < 0x10000 then
    [0xE0 ||| (c >>> 12), 0x80 ||| ((c >>> 6) &&& 0x3F), 0x80 ||| (c &&& 0x3F)]
  else
    [0xF0 ||| (c >>> 18), 0x80 ||| ((c >>> 12) &&& 0x3F),
     0x80 ||| ((c >>> 6) &&& 0x3F), 0x80 ||| (c &&& 0x3F)]

def utf8Encode (s : List Nat) : List Nat := s.flatMap utf8Encode1

/-- UTF-8 bytes of a Lean string literal. -/
def strUtf8 (s : String) : List Nat := utf8Encode (strScalars s)

/-- A list of Unicode scalar values as a Lean `String` (inverse of
`strScalars`; used to build the address strings the source formats). -/
def scalarsToStr (s : List Nat) : String := String.mk (s.map Char.ofNat)

/-- Uppercase hexadecimal digit, as used by Rust's `{:X}` format. -/
def hexDigitChar (n : Nat) : Char :=
  if n < 10 then Char.ofNat (48 + n) else Char.ofNat (55 + n)

/-- Digits of `n` in uppercase hexadecimal, most significant first. -/
def hexDigits (n : Nat) : List Char :=
  if h : n = 0 then [] else hexDigits (n / 16) ++ [hexDigitChar (n % 16)]
termination_by n
decreasing_by exact Nat.div_lt_self (Nat.pos_of_ne_zero h) (by omega)

/-- Rust's `format!("{:X}", n)`: minimal-width uppercase hexadecimal. -/
def toHexUpper (n : Nat) : String :=
  if n = 0 then "0" else String.mk (hexDigits n)

/-- `format!("{}.{}.{}.{}", ipv4[0], ipv4[1], ipv4[2], ipv4[3])` from the
SOCKS5 address decoding (address type `0x01`). -/
def ipv4Str (ip : List Nat) : String :=
  let a := ip.getD 0 0
  let b := ip.getD 1 0
  let c := ip.getD 2 0
  let d := ip.getD 3 0
  s!"{a}.{b}.{c}.{d}"

/-- `format!("{:X}:{:X}:...", ...)` over the eight 16-bit groups of a SOCKS5
IPv6 address (address type `0x04`), each group `(hi << 8) | lo`. -/
def ipv6Str (v6 : List Nat) : String :=
  let g0 := toHexUpper (((v6.getD 0 0) <<< 8) ||| v6.getD 1 0)
  let g1 := toHexUpper (((v6.getD 2 0) <<< 8) ||| v6.getD 3 0)
  let g2 := toHexUpper (((v6.getD 4 0) <<< 8) ||| v6.getD 5 0)
  let g3 := toHexUpper (((v6.getD 6 0) <<< 8) ||| v6.getD 7 0)
  let g4 := toHexUpper (((v6.getD 8 0) <<< 8) ||| v6.getD 9 0)
  let g5 := toHexUpper (((v6.getD 10 0) <<< 8) ||| v6.getD 11 0)
  let g6 := toHexUpper (((v6.getD 12 0) <<< 8) ||| v6.getD 13 0)
  let g7 := toHexUpper (((v6.getD 14 0) <<< 8) ||| v6.getD 15 0)
  s!"{g0}:{g1}:{g2}:{g3}:{g4}:{g5}:{g6}:{g7}"

/-! ## SOCKS5 session (`handle_socks5_proxy`, src/main.rs lines 284-415)

The handler is split along the source's sequential blocks: greeting +
method selection (lines 285-339 head), the username/password
sub-negotiation (lines 310-329), the connect-request parsing
(lines 341-391), and the dial + reply block (lines 393-412).  Writes to the
client always succeed in the model (claims quantify over read failures and
protocol contents, not over write failures). -/

/-- How a SOCKS5 session ends in the model. -/
inductive S5Outcome
  /-- The handler returned `Ok(())` without entering a relay. -/
  | done
  /-- The handler returned `Err(..)` via the `?` operator. -/
  | ioErr
  /-- The handler panicked (out-of-bounds slice operation). -/
  | panicked
  /-- The handler dialed the target successfully and entered the relay. -/
  | relayed (addr : String) (port : Nat)
  deriving DecidableEq

/-- Bytes written to the client plus how the session ended. -/
structure S5Res where
  output : List Nat
  outcome : S5Outcome
  deriving DecidableEq

/-- Result of the username/password sub-negotiation block. -/
inductive SubnegRes
  /-- Credentials accepted (the code wrote `[0x01, 0x00]`); carries the
  unconsumed remainder of the stream. -/
  | proceed (rest : List Nat)
  /-- Credentials rejected (the code wrote `[0x01, 0x01]` and returned). -/
  | failAuth
  /-- A `read_exact` failed and `?` propagated the error. -/
  | ioError
  /-- An out-of-bounds slice operation panicked. -/
  | panicked
  deriving DecidableEq

/-- The sub-negotiation block, src/main.rs lines 310-329, translated
statement by statement.  `u`/`p` are the configured username and password
(Unicode scalars of the CLI strings).  The 512-byte scratch buffer is
modelled explicitly because the code compares the *unwritten* (still
zeroed) buffer region against the configured username: after
`read_exact(&mut buf[..2])` the code immediately does
`buf.split_at_mut(2 + uname_len)` and takes `head[2..2+uname_len]` as the
"provided username" without ever reading the username bytes off the
stream. -/
def s5Subneg (u p : List Nat) (s : List Nat) : List Nat × SubnegRes :=
  match readExact 2 s with
  | none => ([], .ioError)
  | some (b2, s1) =>
    -- read_exact(&mut buf[..2]) overwrites the first two of the 512 zero
    -- bytes of `let mut buf = [0u8; 512]`, leaving 510 zeros behind them
    let buf := b2 ++ List.replicate 510 0
    let uname_len := buf.getD 1 0
    -- buf.split_at_mut(2 + uname_len) panics when 2 + uname_len > 512
    if 512 < 2 + uname_len then ([], .panicked)
    else
      let head := buf.take (2 + uname_len)
      let tail := buf.drop (2 + uname_len)
      let provided_username := utf8Lossy ((head.drop 2).take uname_len)
      -- &mut tail[..1] panics when tail is empty
      if tail.length < 1 then ([], .panicked)
      else
        match readExact 1 s1 with
        | none => ([], .ioError)
        | some (b1, s2) =>
          -- read_exact(&mut tail[..1])
          let tail := b1 ++ tail.drop 1
          let passwd_len := tail.getD 0 0
          -- tail.split_at_mut(1 + passwd_len) panics when it exceeds tail
          if tail.length < 1 + passwd_len then ([], .panicked)
          else
            match readExact passwd_len s2 with
            | none => ([], .ioError)
            | some (pw, s3) =>
              -- read_exact(&mut head[..passwd_len]); the lossy view of the
              -- freshly overwritten prefix is exactly the bytes just read
              let provided_password := utf8Lossy pw
              if provided_username ≠ u ∨ provided_password ≠ p then
                ([1, 1], .failAuth)
              else
                ([1, 0], .proceed s3)

/-- The connect-request parser, src/main.rs lines 341-391: version/command/
reserved/address-type header, address by type, then the 2-byte port.
Returns `none` exactly on the silent-abort paths (read failure, command
other than `0x01`, address type other than `0x01`/`0x03`/`0x04`). -/
def s5ReadRequest (s : List Nat) : Option (String × Nat × List Nat) :=
  match readExact 4 s with
  | none => none
  | some (hdr, s1) =>
    if hdr.getD 1 0 ≠ 1 then none
    else
      -- match buf[3] { 0x01 => .., 0x03 => .., 0x04 => .., _ => return }
      let atyp := hdr.getD 3 0
      let addrRes : Option (String × List Nat) :=
        if atyp = 1 then
          match readExact 4 s1 with
          | none => none
          | some (ip, s2) => some (ipv4Str ip, s2)
        else if atyp = 3 then
          match readExact 1 s1 with
          | none => none
          | some (l, s2) =>
            match readExact (l.getD 0 0) s2 with
            | none => none
            | some (d, s3) => some (scalarsToStr (utf8Lossy d), s3)
        else if atyp = 4 then
          match readExact 16 s1 with
          | none => none
          | some (v6, s2) => some (ipv6Str v6, s2)
        else none
      match addrRes with
      | none => none
      | some (addr, s2) =>
        match readExact 2 s2 with
        | none => none
        | some (pb, s3) =>
          some (addr, ((pb.getD 0 0) <<< 8) ||| pb.getD 1 0, s3)

/-- The dial-and-reply block, src/main.rs lines 393-412: on a successful
dial, write the ten-byte success reply and relay; on dial failure, write
`[0x05, 0x01]` (only these two bytes) and return. -/
def s5Connect (dial : String → Nat → Bool) (addr : String) (port : Nat) : S5Res :=
  if dial addr port then
    ⟨[5, 0, 0, 1] ++ [0, 0, 0, 0] ++ [0, 0], .relayed addr port⟩
  else
    ⟨[5, 1], .done⟩

/-- Connect-request phase: parse then dial; all parse failures abort
silently (no bytes written in this phase). -/
def s5Request (dial : String → Nat → Bool) (s : List Nat) : S5Res :=
  match s5ReadRequest s with
  | none => ⟨[], .done⟩
  | some (addr, port, _) => s5Connect dial addr port

/-- `handle_socks5_proxy`, src/main.rs lines 284-415: greeting (version
must be `0x05`), method list, method selection by configured credentials,
optional sub-negotiation, then the connect request. -/
def handle_socks5_proxy (username password : Option (List Nat))
    (dial : String → Nat → Bool) (s : List Nat) : S5Res :=
  match readExact 2 s with
  | none => ⟨[], .done⟩
  | some (buf, s1) =>
    if buf.getD 0 0 ≠ 5 then ⟨[], .done⟩
    else
      match readExact (buf.getD 1 0) s1 with
      | none => ⟨[], .done⟩
      | some (methods, s2) =>
        if username.isSome && password.isSome then
          if methods.contains 2 = false then ⟨[5, 0xFF], .done⟩
          else
            match s5Subneg (username.getD []) (password.getD []) s2 with
            | (out, .ioError) => ⟨[5, 2] ++ out, .ioErr⟩
            | (out, .panicked) => ⟨[5, 2] ++ out, .panicked⟩
            | (out, .failAuth) => ⟨[5, 2] ++ out, .done⟩
            | (out, .proceed s3) =>
              let r := s5Request dial s3
              ⟨[5, 2] ++ out ++ r.output, r.outcome⟩
        else
          if methods.contains 0 = false then ⟨[5, 0xFF], .done⟩
          else
            let r := s5Request dial s2
            ⟨[5, 0] ++ r.output, r.outcome⟩

/-! ## HTTP proxy session (`handle_http_proxy`, src/main.rs lines 208-282)

The single 4096-byte read is modelled by the byte list the read returned
(`[]` models `n == 0`).  The outbound side is a collaborator capability:
`uriOk` says whether `Request::builder().uri(..).body(..)` succeeds for the
given URI token, and `upstream` is the upstream response obtained from
`client.request` (`none` models a send failure). -/

/-- Bool prefix test on byte/scalar lists (model of `str::starts_with`). -/
def isPrefixOfB : List Nat → List Nat → Bool
  | [], _ => true
  | _ :: _, [] => false
  | a :: as, b :: bs => a == b && isPrefixOfB as bs

/-- Bool substring test (model of `str::contains` for a literal needle). -/
def containsSub (needle : List Nat) : List Nat → Bool
  | [] => needle.isEmpty
  | c :: t => isPrefixOfB needle (c :: t) || containsSub needle t

/-- Unicode white-space, as used by Rust's `str::split_whitespace`. -/
def isWsChar (c : Nat) : Bool :=
  c == 0x20 || c == 0x9 || c == 0xA || c == 0xB || c == 0xC || c == 0xD ||
  c == 0x85 || c == 0xA0 || c == 0x1680 ||
  (0x2000 ≤ c && c ≤ 0x200A) || c == 0x2028 || c == 0x2029 ||
  c == 0x202F || c == 0x205F || c == 0x3000

/-- `str::split_whitespace().collect()`: maximal non-white-space runs. -/
def splitWsAux : List Nat → List Nat → List (List Nat)
  | [], cur => if cur.isEmpty then [] else [cur.reverse]
  | c :: rest, cur =>
    if isWsChar c then
      if cur.isEmpty then splitWsAux rest []
      else cur.reverse :: splitWsAux rest []
    else splitWsAux rest (c :: cur)

def splitWs (s : List Nat) : List (List Nat) := splitWsAux s []

/-- Value of the standard base64 alphabet at index `n` (ASCII code). -/
def b64Char (n : Nat) : Nat :=
  if n < 26 then 65 + n
  else if n < 52 then 97 + (n - 26)
  else if n < 62 then 48 + (n - 52)
  else if n = 62 then 43 else 47

/-- `base64::encode` over a byte list (standard alphabet, `=` padding);
the result is the ASCII bytes of the encoded string. -/
def base64Encode : List Nat → List Nat
  | a :: b :: c :: rest =>
    b64Char (a / 4) :: b64Char ((a % 4) * 16 + b / 16) ::
      b64Char ((b % 16) * 4 + c / 64) :: b64Char (c % 64) :: base64Encode rest
  | [a, b] =>
    [b64Char (a / 4), b64Char ((a % 4) * 16 + b / 16), b64Char ((b % 16) * 4), 61]
  | [a] => [b64Char (a / 4), b64Char ((a % 4) * 16), 61, 61]
  | [] => []

/-- The literal header string the code demands:
`format!("Proxy-Authorization: Basic {}", encode(format!("{}:{}", u, p)))`,
as scalars. -/
def authHeaderFor (u p : List Nat) : List Nat :=
  strScalars "Proxy-Authorization: Basic " ++
    (base64Encode (utf8Encode (u ++ strScalars ":" ++ p)))

/-- `http::HeaderValue::to_str` succeeds iff every byte is visible ASCII
or horizontal tab; otherwise `.unwrap()` on it panics. -/
def headerValOk (v : List Nat) : Bool :=
  v.all fun b => (32 ≤ b && b < 127) || b == 9

/-- An upstream response as delivered by the HTTP client collaborator:
the `Display` rendering of its status (e.g. `"200 OK"`, scalars), the
header list in order (name scalars, value bytes), and the body as a
sequence of chunks (`none` models an `Err` chunk, which the code skips). -/
structure UpstreamResp where
  status : List Nat
  headers : List (List Nat × List Nat)
  body : List (Option (List Nat))
  deriving DecidableEq

/-- How an HTTP proxy session ends in the model. -/
inductive HttpOutcome
  /-- The handler returned `Ok(())` without entering a relay. -/
  | done
  /-- The handler panicked on an `unwrap()`. -/
  | panicked
  /-- CONNECT tunnel: target dialed and the relay was spawned. -/
  | tunnel (target : List Nat)
  deriving DecidableEq

/-- Bytes written to the client plus how the session ended. -/
structure HttpRes where
  output : List Nat
  outcome : HttpOutcome
  deriving DecidableEq

/-- The header-forwarding loop, src/main.rs lines 256-261: each header is
written as `"{}: {}\r\n"`; a value that is not convertible to a string
(`to_str().unwrap()`) panics after the earlier lines were written.
Returns the bytes written and whether the loop panicked. -/
def writeHeaderLines : List (List Nat × List Nat) → List Nat × Bool
  | [] => ([], false)
  | (k, v) :: rest =>
    if headerValOk v then
      let line := utf8Encode (k ++ strScalars ": " ++ v ++ strScalars "\r\n")
      let r := writeHeaderLines rest
      (line ++ r.1, r.2)
    else ([], true)

/-- `handle_http_proxy`, src/main.rs lines 208-282.  `reqBytes` are the
bytes of the single head read; `dialC` is the CONNECT dial oracle over the
`host:port` token; `uriOk` and `upstream` model the HTTP-client
collaborator for the non-CONNECT branch. -/
def handle_http_proxy (username password : Option (List Nat))
    (dialC : List Nat → Bool) (uriOk : List Nat → Bool)
    (upstream : Option UpstreamResp) (reqBytes : List Nat) : HttpRes :=
  if reqBytes.isEmpty then ⟨[], .done⟩
  else
    let request_line := utf8Lossy reqBytes
    if isPrefixOfB (strScalars "CONNECT") request_line then
      let parts := splitWs request_line
      if parts.length < 3 then ⟨[], .done⟩
      else
        let authFailed :=
          match username, password with
          | some u, some p => !(containsSub (authHeaderFor u p) request_line)
          | _, _ => false
        if authFailed then
          ⟨strUtf8 "HTTP/1.1 407 Proxy Authentication Required\r\nProxy-Authenticate: Basic realm=\"Proxy\"\r\n\r\n",
           .done⟩
        else
          let ok200 := strUtf8 "HTTP/1.1 200 Connection Established\r\n\r\n"
          let target := parts.getD 1 []
          if dialC target then ⟨ok200, .tunnel target⟩ else ⟨ok200, .done⟩
    else
      -- String::from_utf8_lossy(&buffer[..n]).split_whitespace().nth(1).unwrap()
      match (splitWs request_line).get? 1 with
      | none => ⟨[], .panicked⟩
      | some uri =>
        if !(uriOk uri) then ⟨[], .done⟩   -- Err(_) => return Ok(())
        else
          match upstream with
          | none => ⟨strUtf8 "HTTP/1.1 500 Internal Server Error\r\n\r\n", .done⟩
          | some resp =>
            let statusLine := utf8Encode (strScalars "HTTP/1.1 " ++ resp.status ++ strScalars "\r\n")
            let hdr := writeHeaderLines resp.headers
            if hdr.2 then ⟨statusLine ++ hdr.1, .panicked⟩
            else
              let bodyBytes := (resp.body.filterMap id).flatten
              ⟨statusLine ++ hdr.1 ++ strUtf8 "\r\n" ++ bodyBytes, .done⟩

/-! ## Relay synchronization (`mutual_copy_io`, lines 417-436, and the
SOCKS5 in-session relay, lines 400-406)

Each copy direction is abstracted by the instant it signals completion and
whether it completed with success/EOF (`ok = true`) or a non-EOF error
(`ok = false`).  `mutual_copy_io` spawns both copies and then awaits one
oneshot completion channel per direction, so it returns at the later of the
two completion instants and discards both results (`let _ = ...`).  The
SOCKS5 session instead runs `tokio::try_join!` over the two copy futures:
`try_join!` resolves as soon as either future errors (dropping the other),
or after both succeed; `.ok()` then discards the result, so the error is
never propagated either way. -/

/-- One relay direction: when it signals completion and whether it ended in
success/EOF (`true`) or a non-EOF error (`false`). -/
structure CopyDir where
  time : Nat
  ok : Bool
  deriving DecidableEq

/-- Instant at which `mutual_copy_io` returns: it awaits both oneshot
completion signals, hence the later of the two. -/
def mutual_copy_io_return (d0 d1 : CopyDir) : Nat := max d0.time d1.time

/-- Whether `mutual_copy_io` propagates a copy error to its caller: both
copy results are discarded with `let _ = copy(..)`, so never. -/
def mutual_copy_io_fatal (_ _ : CopyDir) : Bool := false

/-- Instant at which `tokio::try_join!(c2s, s2c)` resolves: the first
error if any direction errors, otherwise after both succeed. -/
def try_join_return (d0 d1 : CopyDir) : Nat :=
  if d0.ok then
    if d1.ok then max d0.time d1.time else d1.time
  else
    if d1.ok then d0.time else min d0.time d1.time

/-- Instant at which the SOCKS5 session's relay statement
`tokio::try_join!(client_to_server, server_to_client).ok()` finishes. -/
def socks5_relay_return (d0 d1 : CopyDir) : Nat := try_join_return d0 d1

/-- Whether the SOCKS5 session's relay propagates a copy error: `.ok()`
discards the `Result`, so never. -/
def socks5_relay_fatal (_ _ : CopyDir) : Bool := false

/-! ## Agent mode (`agent`, src/main.rs lines 138-166)

The two dial oracles give the outcome of the k-th dial attempt against each
endpoint.  One unit of fuel is one loop iteration; `running` means the loop
is still going when the fuel runs out, and each failed dial is followed by
exactly one `sleep(RETRY_INTERVAL)`, counted in `sleeps`. -/

def RETRY_INTERVAL : Nat := 5

/-- Observable fate of the agent control loop after a bounded number of
iterations. -/
inductive AgentResult
  /-- The function returned `Ok(())` (both `break`s executed after the
  relay ended); `sleeps` counts the retry sleeps taken before that. -/
  | finished (sleeps : Nat)
  /-- Still inside the retry loops when the fuel ran out. -/
  | running (sleeps : Nat)
  deriving DecidableEq

/-- The inner loop (lines 144-155): dial endpoint 1; on success relay and
`break` (followed by the outer `break`, so the whole call returns); on
failure sleep `RETRY_INTERVAL` and retry. -/
def agent_inner (d1 : Nat → Bool) : Nat → Nat → Nat → AgentResult
  | 0, _, sleeps => .running sleeps
  | fuel + 1, j, sleeps =>
    if d1 j then .finished sleeps
    else agent_inner d1 fuel (j + 1) (sleeps + 1)

/-- The outer loop (lines 141-163): dial endpoint 0; on success enter the
inner loop; on failure sleep `RETRY_INTERVAL` and retry. -/
def agent_loop (d0 d1 : Nat → Bool) : Nat → Nat → Nat → AgentResult
  | 0, _, sleeps => .running sleeps
  | fuel + 1, i, sleeps =>
    if d0 i then agent_inner d1 fuel 0 sleeps
    else agent_loop d0 d1 fuel (i + 1) (sleeps + 1)

/-- The `agent` entry point: both loops started with fresh attempt
counters and no sleeps taken. -/
def agent (d0 d1 : Nat → Bool) (fuel : Nat) : AgentResult :=
  agent_loop d0 d1 fuel 0 0

/-! ## Helper lemmas -/

theorem readExact_cons1 (a : Nat) (rest : List Nat) :
    readExact 1 (a :: rest) = some ([a], rest) :=
  readExact_append [a] rest rfl

theorem readExact_cons2 (a b : Nat) (rest : List Nat) :
    readExact 2 (a :: b :: rest) = some ([a, b], rest) :=
  readExact_append [a, b] rest rfl

theorem readExact_cons4 (a b c d : Nat) (rest : List Nat) :
    readExact 4 (a :: b :: c :: d :: rest) = some ([a, b, c, d], rest) :=
  readExact_append [a, b, c, d] rest rfl

/-- Closed form of the sub-negotiation block on a stream starting with the
three bytes the code actually consumes before the panic-prone split (the
declared version, the declared username length, and the byte the code
misreads as the password length). -/
theorem s5Subneg_cons (u p : List Nat) (v ulen p0 : Nat) (rest : List Nat)
    (hu : ulen ≤ 255) :
    s5Subneg u p (v :: ulen :: p0 :: rest) =
      if 510 - ulen < 1 + p0 then ([], .panicked)
      else
        match readExact p0 rest with
        | none => ([], .ioError)
        | some (pw, s3) =>
          if utf8Lossy (List.replicate ulen 0) ≠ u ∨ utf8Lossy pw ≠ p then
            ([1, 1], .failAuth)
          else ([1, 0], .proceed s3) := by
  rw [s5Subneg, readExact_cons2]
  dsimp only
  simp only [List.cons_append, List.nil_append, List.getD_cons_zero,
    List.getD_cons_succ]
  rw [if_neg (show ¬ (512 < 2 + ulen) by omega)]
  rw [readExact_cons1]
  dsimp only
  have hdroptake :
      ((v :: ulen :: List.replicate 510 0).take (2 + ulen)).drop 2 =
        List.replicate ulen 0 := by
    rw [List.drop_take, Nat.add_sub_cancel_left]
    rw [show (v :: ulen :: List.replicate 510 0).drop 2 =
      List.replicate 510 0 from rfl]
    rw [List.take_replicate, Nat.min_eq_left (by omega)]
  have hlen : ((v :: ulen :: List.replicate 510 0).drop (2 + ulen)).length =
      510 - ulen := by
    rw [List.length_drop]
    simp only [List.length_cons, List.length_replicate]
    omega
  have hlen1 :
      ¬ (((v :: ulen :: List.replicate 510 0).drop (2 + ulen)).length < 1) := by
    rw [hlen]; omega
  simp only [hdroptake, if_neg hlen1, List.cons_append, List.nil_append,
    List.getD_cons_zero, List.length_cons, List.length_drop, hlen]
  simp only [show (510 - ulen - 1 + 1 < 1 + p0) ↔ (510 - ulen < 1 + p0) from
    by omega, List.take_replicate, Nat.min_self]
  rw [if_neg (show ¬ (510 - ulen < 1) by omega)]

/-- The connect-request phase never panics: all its failure paths abort
silently and the dial block only writes a reply. -/
theorem s5Request_not_panicked (dial : String → Nat → Bool) (s : List Nat) :
    (s5Request dial s).outcome ≠ S5Outcome.panicked := by
  rw [s5Request]
  cases s5ReadRequest s with
  | none => simp
  | some t =>
    obtain ⟨addr, port, r⟩ := t
    dsimp only
    rw [s5Connect]
    by_cases hd : dial addr port
    · simp [hd]
    · simp [hd]

/-- Closed form of the handler once a well-formed greeting
`[0x05, n] ++ methods` (with `n` the method count) has been consumed. -/
theorem handle_s5_after_greeting (un pw : Option (List Nat))
    (dial : String → Nat → Bool) (ms rest : List Nat) :
    handle_socks5_proxy un pw dial ([5, ms.length] ++ ms ++ rest) =
      if un.isSome && pw.isSome then
        if ms.contains 2 = false then ⟨[5, 0xFF], .done⟩
        else
          match s5Subneg (un.getD []) (pw.getD []) rest with
          | (out, .ioError) => ⟨[5, 2] ++ out, .ioErr⟩
          | (out, .panicked) => ⟨[5, 2] ++ out, .panicked⟩
          | (out, .failAuth) => ⟨[5, 2] ++ out, .done⟩
          | (out, .proceed s3) =>
            let r := s5Request dial s3
            ⟨[5, 2] ++ out ++ r.output, r.outcome⟩
      else
        if ms.contains 0 = false then ⟨[5, 0xFF], .done⟩
        else
          let r := s5Request dial rest
          ⟨[5, 0] ++ r.output, r.outcome⟩ := by
  rw [handle_socks5_proxy]
  rw [show ([5, ms.length] ++ ms ++ rest : List Nat) =
    5 :: ms.length :: (ms ++ rest) from rfl]
  rw [readExact_cons2]
  dsimp only
  rw [show ([5, ms.length] : List Nat).getD 0 0 = 5 from rfl]
  rw [if_neg (by decide : ¬ ((5 : Nat) ≠ 5))]
  rw [show ([5, ms.length] : List Nat).getD 1 0 = ms.length from rfl]
  rw [readExact_append ms rest rfl]

/-! ## Claims -/

/-- C1: the spec says a client that completes the sub-negotiation with the
exact configured username and password receives `[0x01, 0x00]` and the
session proceeds to the connect request.  The code never reads the declared
username bytes off the stream (it compares the configured username against
the still-zeroed scratch buffer) and then misreads the first username byte
as the password length.  Evaluating the handler at the failing input —
credentials `("user", "pass")` and the exact RFC-1929 client message
`[0x01, 4, "user", 4, "pass"]` after a greeting offering method `0x02` —
the session writes only the method reply `[0x05, 0x02]` and then aborts
with a read error (it tries to read 117 = `'u'` password bytes), so the
success reply `[0x01, 0x00]` is never sent. -/
theorem c1_correct_credentials_rejected (dial : String → Nat → Bool) :
    handle_socks5_proxy (some (strScalars "user")) (some (strScalars "pass"))
      dial ([5, 1, 2] ++ [1, 4, 117, 115, 101, 114, 4, 112, 97, 115, 115]) =
      ⟨[5, 2], .ioErr⟩ := rfl

/-- C2 counterexample: a no-auth SOCKS5 session whose connect request
targets an undialable `1.2.3.4:80` writes `[5, 0]` (method reply) followed
by only the two bytes `[5, 1]` — not the ten bytes
`[5, 1, 0, 1, 0, 0, 0, 0, 0, 0]` the claim states. -/
theorem c2_counterexample :
    handle_socks5_proxy none none (fun _ _ => false)
        ([5, 1, 0] ++ [5, 1, 0, 1] ++ [1, 2, 3, 4] ++ [0, 80]) =
      ⟨[5, 0, 5, 1], .done⟩ ∧
    [5, 0, 5, 1] ≠ [5, 0] ++ [5, 1, 0, 1, 0, 0, 0, 0, 0, 0] :=
  ⟨rfl, by decide⟩

/-- C2 (amended): on a dial failure the session writes exactly the two
bytes `[0x05, 0x01]` and terminates without relaying. -/
theorem c2_dial_failure_two_byte_reply (dial : String → Nat → Bool)
    (addr : String) (port : Nat) (h : dial addr port = false) :
    s5Connect dial addr port = ⟨[5, 1], .done⟩ := by
  rw [s5Connect, h]
  simp

theorem c2_dial_failure_two_byte_reply_witness :
    s5Connect (fun _ _ => false) "1.2.3.4" 80 = ⟨[5, 1], .done⟩ :=
  c2_dial_failure_two_byte_reply (fun _ _ => false) "1.2.3.4" 80 rfl

/-- C3 counterexample: with both endpoints dialable on the first attempt,
the agent control loop finishes — it returns `Ok(())` after the relay ends
(the inner `break` is followed by the outer `break`), instead of
restarting the dial sequence from endpoint 0 and never terminating. -/
theorem c3_counterexample :
    agent (fun _ => true) (fun _ => true) 2 = AgentResult.finished 0 := rfl

/-- C3 (amended): every dial failure on either endpoint is followed by one
fixed-interval sleep and another attempt, indefinitely — but when the relay
between the two dialed connections ends, the agent returns instead of
restarting the dial sequence from endpoint 0. -/
theorem c3_agent_retry_then_return :
    (∀ (d0 d1 : Nat → Bool) (fuel i s : Nat), (∀ k, d0 k = false) →
      agent_loop d0 d1 fuel i s = AgentResult.running (s + fuel)) ∧
    (∀ (d1 : Nat → Bool) (fuel j s : Nat), (∀ k, d1 k = false) →
      agent_inner d1 fuel j s = AgentResult.running (s + fuel)) ∧
    (∀ (d0 d1 : Nat → Bool) (fuel : Nat), d0 0 = true → d1 0 = true →
      agent d0 d1 (fuel + 2) = AgentResult.finished 0) := by
  refine ⟨?_, ?_, ?_⟩
  · intro d0 d1 fuel
    induction fuel with
    | zero => intro i s _; simp [agent_loop]
    | succ n ih =>
      intro i s h
      rw [show s + (n + 1) = (s + 1) + n by omega]
      rw [agent_loop, h i, if_neg (by decide : ¬ (false = true))]
      exact ih (i + 1) (s + 1) h
  · intro d1 fuel
    induction fuel with
    | zero => intro j s _; simp [agent_inner]
    | succ n ih =>
      intro j s h
      rw [show s + (n + 1) = (s + 1) + n by omega]
      rw [agent_inner, h j, if_neg (by decide : ¬ (false = true))]
      exact ih (j + 1) (s + 1) h
  · intro d0 d1 fuel h0 h1
    rw [agent, agent_loop, h0, agent_inner, h1]
    simp

theorem c3_agent_retry_then_return_witness :
    agent_loop (fun _ => false) (fun _ => true) 3 0 0 = AgentResult.running 3 ∧
    agent_inner (fun _ => false) 4 0 0 = AgentResult.running 4 ∧
    agent (fun _ => true) (fun _ => true) 5 = AgentResult.finished 0 := by
  refine ⟨?_, ?_, ?_⟩
  · simpa using c3_agent_retry_then_return.1 (fun _ => false) (fun _ => true)
      3 0 0 (fun _ => rfl)
  · simpa using c3_agent_retry_then_return.2.1 (fun _ => false) 4 0 0
      (fun _ => rfl)
  · exact c3_agent_retry_then_return.2.2 (fun _ => true) (fun _ => true) 3
      rfl rfl

/-- C4 counterexample: at the SOCKS5 session's relay call site
(`tokio::try_join!`), a non-EOF error in one direction at instant 1 makes
the relay statement finish at instant 1, before the other direction's
completion at instant 5 — so the operation does *not* return only after
both directions have signaled completion, contradicting the claim's "holds
at every call site". -/
theorem c4_counterexample :
    socks5_relay_return ⟨5, true⟩ ⟨1, false⟩ = 1 ∧
    ¬ (5 ≤ socks5_relay_return ⟨5, true⟩ ⟨1, false⟩) := by decide

/-- C4 (amended): `mutual_copy_io` returns only after both copy directions
have signaled completion and never propagates a direction's error, and the
SOCKS5 session's relay also never propagates an error (`.ok()` discards
it); but that call site waits for both directions only when neither
direction errors. -/
theorem c4_relay_completion :
    (∀ d0 d1 : CopyDir,
      d0.time ≤ mutual_copy_io_return d0 d1 ∧
      d1.time ≤ mutual_copy_io_return d0 d1 ∧
      mutual_copy_io_fatal d0 d1 = false) ∧
    (∀ d0 d1 : CopyDir, socks5_relay_fatal d0 d1 = false) ∧
    (∀ d0 d1 : CopyDir, d0.ok = true → d1.ok = true →
      d0.time ≤ socks5_relay_return d0 d1 ∧
      d1.time ≤ socks5_relay_return d0 d1) := by
  refine ⟨?_, ?_, ?_⟩
  · intro d0 d1
    exact ⟨Nat.le_max_left _ _, Nat.le_max_right _ _, rfl⟩
  · intro d0 d1
    rfl
  · intro d0 d1 h0 h1
    rw [socks5_relay_return, try_join_return, h0, h1]
    exact ⟨by simp [Nat.le_max_left], by simp [Nat.le_max_right]⟩

theorem c4_relay_completion_witness :
    3 ≤ socks5_relay_return ⟨3, true⟩ ⟨7, true⟩ ∧
    7 ≤ socks5_relay_return ⟨3, true⟩ ⟨7, true⟩ :=
  c4_relay_completion.2.2 ⟨3, true⟩ ⟨7, true⟩ rfl rfl

/-- C5: for a SOCKS5 greeting `[0x05, n] ++ methods`: with credentials
configured, offering method `0x02` yields the reply `[0x05, 0x02]` (the
first two output bytes) and omitting it yields exactly `[0x05, 0xFF]` and
the session aborts; with no credentials configured, offering `0x00` yields
`[0x05, 0x00]` and omitting it yields exactly `[0x05, 0xFF]` and the
session aborts. -/
theorem c5_method_selection (dial : String → Nat → Bool)
    (u p ms rest : List Nat) (_hms : ms.length ≤ 255) :
    (ms.contains 2 = true →
      (handle_socks5_proxy (some u) (some p) dial
        ([5, ms.length] ++ ms ++ rest)).output.take 2 = [5, 2]) ∧
    (ms.contains 2 = false →
      handle_socks5_proxy (some u) (some p) dial
        ([5, ms.length] ++ ms ++ rest) = ⟨[5, 0xFF], .done⟩) ∧
    (ms.contains 0 = true →
      (handle_socks5_proxy none none dial
        ([5, ms.length] ++ ms ++ rest)).output.take 2 = [5, 0]) ∧
    (ms.contains 0 = false →
      handle_socks5_proxy none none dial
        ([5, ms.length] ++ ms ++ rest) = ⟨[5, 0xFF], .done⟩) := by
  refine ⟨?_, ?_, ?_, ?_⟩
  · intro hc
    rw [handle_s5_after_greeting]
    rw [show ((some u).isSome && (some p).isSome) = true from rfl]
    rw [if_pos (rfl : (true : Bool) = true)]
    rw [hc, if_neg (by decide : ¬ ((true : Bool) = false))]
    rw [show (some u).getD [] = u from rfl, show (some p).getD [] = p from rfl]
    cases hsub : s5Subneg u p rest with
    | mk out res =>
      cases res
      all_goals dsimp only
      all_goals
        first
        | exact List.take_left' rfl
        | (rw [List.append_assoc]; exact List.take_left' rfl)
  · intro hc
    rw [handle_s5_after_greeting]
    rw [show ((some u).isSome && (some p).isSome) = true from rfl]
    rw [if_pos (rfl : (true : Bool) = true)]
    rw [hc, if_pos (rfl : (false : Bool) = false)]
  · intro hc
    rw [handle_s5_after_greeting]
    rw [show ((none : Option (List Nat)).isSome &&
      (none : Option (List Nat)).isSome) = false from rfl]
    rw [if_neg (by decide : ¬ ((false : Bool) = true))]
    rw [hc, if_neg (by decide : ¬ ((true : Bool) = false))]
    dsimp only
    exact List.take_left' rfl
  · intro hc
    rw [handle_s5_after_greeting]
    rw [show ((none : Option (List Nat)).isSome &&
      (none : Option (List Nat)).isSome) = false from rfl]
    rw [if_neg (by decide : ¬ ((false : Bool) = true))]
    rw [hc, if_pos (rfl : (false : Bool) = false)]

theorem c5_method_selection_witness :
    (handle_socks5_proxy (some [117]) (some [112]) (fun _ _ => false)
      ([5, 2] ++ [1, 2] ++ [])).output.take 2 = [5, 2] ∧
    handle_socks5_proxy (some [117]) (some [112]) (fun _ _ => false)
      ([5, 1] ++ [0] ++ []) = ⟨[5, 0xFF], .done⟩ ∧
    (handle_socks5_proxy none none (fun _ _ => false)
      ([5, 1] ++ [0] ++ [])).output.take 2 = [5, 0] ∧
    handle_socks5_proxy none none (fun _ _ => false)
      ([5, 1] ++ [2] ++ []) = ⟨[5, 0xFF], .done⟩ := by
  refine ⟨?_, ?_, ?_, ?_⟩
  · exact (c5_method_selection (fun _ _ => false) [117] [112] [1, 2] []
      (by decide)).1 (by decide)
  · exact (c5_method_selection (fun _ _ => false) [117] [112] [0] []
      (by decide)).2.1 (by decide)
  · exact (c5_method_selection (fun _ _ => false) [] [] [0] []
      (by decide)).2.2.1 (by decide)
  · exact (c5_method_selection (fun _ _ => false) [] [] [2] []
      (by decide)).2.2.2 (by decide)

/-- C6: protocol violations (greeting version byte other than `0x05`,
connect command other than `0x01`, address type other than
`0x01`/`0x03`/`0x04`) and read failures at every step abort the session
with no reply bytes written for that step: the greeting steps write
nothing, every connect-request failure leaves the request parser at `none`
and the request phase writes nothing, and end to end the session's output
is exactly the replies of the completed earlier steps. -/
theorem c6_violations_abort_silently (dial : String → Nat → Bool) :
    -- greeting version byte ≠ 5: nothing written, silent return
    (∀ (un pw : Option (List Nat)) (v b : Nat) (rest : List Nat), v ≠ 5 →
      handle_socks5_proxy un pw dial (v :: b :: rest) = ⟨[], .done⟩) ∧
    -- read failure on the two greeting bytes
    (∀ (un pw : Option (List Nat)) (s : List Nat), s.length < 2 →
      handle_socks5_proxy un pw dial s = ⟨[], .done⟩) ∧
    -- read failure on the method list
    (∀ (un pw : Option (List Nat)) (nm : Nat) (rest : List Nat),
      rest.length < nm →
      handle_socks5_proxy un pw dial (5 :: nm :: rest) = ⟨[], .done⟩) ∧
    -- connect command ≠ 1: silent parse abort
    (∀ (v2 c rsv atyp : Nat) (rest : List Nat), c ≠ 1 →
      s5ReadRequest (v2 :: c :: rsv :: atyp :: rest) = none) ∧
    -- address type not in {1, 3, 4}: silent parse abort
    (∀ (v2 rsv atyp : Nat) (rest : List Nat),
      atyp ≠ 1 → atyp ≠ 3 → atyp ≠ 4 →
      s5ReadRequest (v2 :: 1 :: rsv :: atyp :: rest) = none) ∧
    -- read failure on the 4-byte request header
    (∀ s : List Nat, s.length < 4 → s5ReadRequest s = none) ∧
    -- read failure on the IPv4 address or the port after it
    (∀ (v2 rsv : Nat) (rest : List Nat), rest.length < 6 →
      s5ReadRequest (v2 :: 1 :: rsv :: 1 :: rest) = none) ∧
    -- read failure on the domain name or the port after it
    (∀ (v2 rsv dl : Nat) (drest : List Nat), drest.length < dl + 2 →
      s5ReadRequest (v2 :: 1 :: rsv :: 3 :: dl :: drest) = none) ∧
    -- read failure on the IPv6 address or the port after it
    (∀ (v2 rsv : Nat) (rest : List Nat), rest.length < 18 →
      s5ReadRequest (v2 :: 1 :: rsv :: 4 :: rest) = none) ∧
    -- a silently-failed request step writes nothing
    (∀ s : List Nat, s5ReadRequest s = none →
      s5Request dial s = ⟨[], .done⟩) ∧
    -- end to end (no-auth): only the greeting reply is ever written
    (∀ (ms rest : List Nat), ms.contains 0 = true →
      s5ReadRequest rest = none →
      handle_socks5_proxy none none dial ([5, ms.length] ++ ms ++ rest) =
        ⟨[5, 0], .done⟩) ∧
    -- end to end (credentials): sub-negotiation read failure aborts with
    -- only the method reply written
    (∀ (u p ms rest : List Nat), ms.contains 2 = true → rest.length < 2 →
      handle_socks5_proxy (some u) (some p) dial
        ([5, ms.length] ++ ms ++ rest) = ⟨[5, 2], .ioErr⟩) := by
  have hreq_none : ∀ s : List Nat, s5ReadRequest s = none →
      s5Request dial s = ⟨[], .done⟩ := by
    intro s h
    rw [s5Request, h]
  refine ⟨?_, ?_, ?_, ?_, ?_, ?_, ?_, ?_, ?_, hreq_none, ?_, ?_⟩
  · intro un pw v b rest hv
    rw [handle_socks5_proxy, readExact_cons2]
    dsimp only
    rw [show ([v, b] : List Nat).getD 0 0 = v from rfl]
    rw [if_pos hv]
  · intro un pw s hs
    rw [handle_socks5_proxy, readExact_eq_none hs]
  · intro un pw nm rest hr
    rw [handle_socks5_proxy, readExact_cons2]
    dsimp only
    rw [show ([5, nm] : List Nat).getD 0 0 = 5 from rfl]
    rw [if_neg (by decide : ¬ ((5 : Nat) ≠ 5))]
    rw [show ([5, nm] : List Nat).getD 1 0 = nm from rfl]
    rw [readExact_eq_none hr]
  · intro v2 c rsv atyp rest hc
    rw [s5ReadRequest, readExact_cons4]
    dsimp only
    rw [show ([v2, c, rsv, atyp] : List Nat).getD 1 0 = c from rfl]
    rw [if_pos hc]
  · intro v2 rsv atyp rest h1 h3 h4
    rw [s5ReadRequest, readExact_cons4]
    dsimp only
    rw [show ([v2, 1, rsv, atyp] : List Nat).getD 1 0 = 1 from rfl]
    rw [if_neg (by decide : ¬ ((1 : Nat) ≠ 1))]
    rw [show ([v2, 1, rsv, atyp] : List Nat).getD 3 0 = atyp from rfl]
    rw [if_neg h1, if_neg h3, if_neg h4]
  · intro s hs
    rw [s5ReadRequest, readExact_eq_none hs]
  · intro v2 rsv rest hr
    rw [s5ReadRequest, readExact_cons4]
    dsimp only
    rw [show ([v2, 1, rsv, 1] : List Nat).getD 1 0 = 1 from rfl]
    rw [if_neg (by decide : ¬ ((1 : Nat) ≠ 1))]
    rw [show ([v2, 1, rsv, 1] : List Nat).getD 3 0 = 1 from rfl]
    rw [if_pos (rfl : (1 : Nat) = 1)]
    by_cases h4 : rest.length < 4
    · rw [readExact_eq_none h4]
    · rw [readExact, if_pos (by omega : 4 ≤ rest.length)]
      dsimp only
      rw [readExact_eq_none (by simp [List.length_drop]; omega)]
  · intro v2 rsv dl drest hr
    rw [s5ReadRequest, readExact_cons4]
    dsimp only
    rw [show ([v2, 1, rsv, 3] : List Nat).getD 1 0 = 1 from rfl]
    rw [if_neg (by decide : ¬ ((1 : Nat) ≠ 1))]
    rw [show ([v2, 1, rsv, 3] : List Nat).getD 3 0 = 3 from rfl]
    rw [if_neg (by decide : ¬ ((3 : Nat) = 1)), if_pos (rfl : (3 : Nat) = 3)]
    rw [readExact_cons1]
    dsimp only
    rw [show ([dl] : List Nat).getD 0 0 = dl from rfl]
    by_cases hd : drest.length < dl
    · rw [readExact_eq_none hd]
    · rw [readExact, if_pos (by omega : dl ≤ drest.length)]
      dsimp only
      rw [readExact_eq_none (by simp [List.length_drop]; omega)]
  · intro v2 rsv rest hr
    rw [s5ReadRequest, readExact_cons4]
    dsimp only
    rw [show ([v2, 1, rsv, 4] : List Nat).getD 1 0 = 1 from rfl]
    rw [if_neg (by decide : ¬ ((1 : Nat) ≠ 1))]
    rw [show ([v2, 1, rsv, 4] : List Nat).getD 3 0 = 4 from rfl]
    rw [if_neg (by decide : ¬ ((4 : Nat) = 1)),
      if_neg (by decide : ¬ ((4 : Nat) = 3)), if_pos (rfl : (4 : Nat) = 4)]
    by_cases h16 : rest.length < 16
    · rw [readExact_eq_none h16]
    · rw [readExact, if_pos (by omega : 16 ≤ rest.length)]
      dsimp only
      rw [readExact_eq_none (by simp [List.length_drop]; omega)]
  · intro ms rest hc0 hnone
    rw [handle_s5_after_greeting]
    rw [show ((none : Option (List Nat)).isSome &&
      (none : Option (List Nat)).isSome) = false from rfl]
    rw [if_neg (by decide : ¬ ((false : Bool) = true))]
    rw [hc0, if_neg (by decide : ¬ ((true : Bool) = false))]
    rw [hreq_none rest hnone]
    simp
  · intro u p ms rest hc2 hlen
    rw [handle_s5_after_greeting]
    rw [show ((some u).isSome && (some p).isSome) = true from rfl]
    rw [if_pos (rfl : (true : Bool) = true)]
    rw [hc2, if_neg (by decide : ¬ ((true : Bool) = false))]
    rw [show (some u).getD [] = u from rfl, show (some p).getD [] = p from rfl]
    rw [s5Subneg, readExact_eq_none hlen]
    simp

theorem c6_violations_abort_silently_witness :
    handle_socks5_proxy none none (fun _ _ => false) (4 :: 0 :: []) =
      ⟨[], .done⟩ ∧
    handle_socks5_proxy none none (fun _ _ => false) [5] = ⟨[], .done⟩ ∧
    handle_socks5_proxy none none (fun _ _ => false) (5 :: 3 :: [0]) =
      ⟨[], .done⟩ ∧
    s5ReadRequest (5 :: 2 :: 0 :: 1 :: []) = none ∧
    s5ReadRequest (5 :: 1 :: 0 :: 9 :: []) = none ∧
    s5ReadRequest [5, 1, 0] = none ∧
    s5ReadRequest (5 :: 1 :: 0 :: 1 :: [1, 2, 3, 4, 0]) = none ∧
    s5ReadRequest (5 :: 1 :: 0 :: 3 :: 2 :: [97, 98, 0]) = none ∧
    s5ReadRequest (5 :: 1 :: 0 :: 4 :: List.replicate 17 0) = none ∧
    s5Request (fun _ _ => false) [5, 9, 0, 1] = ⟨[], .done⟩ ∧
    handle_socks5_proxy none none (fun _ _ => false)
      ([5, 1] ++ [0] ++ [5, 9, 0, 1]) = ⟨[5, 0], .done⟩ ∧
    handle_socks5_proxy (some [117]) (some [112]) (fun _ _ => false)
      ([5, 1] ++ [2] ++ [1]) = ⟨[5, 2], .ioErr⟩ := by
  obtain ⟨h1, h2, h3, h4, h5, h6, h7, h8, h9, h10, h11, h12⟩ :=
    c6_violations_abort_silently (fun _ _ => false)
  refine ⟨h1 none none 4 0 [] (by decide), h2 none none [5] (by decide),
    h3 none none 3 [0] (by decide), h4 5 2 0 1 [] (by decide),
    h5 5 0 9 [] (by decide) (by decide) (by decide), h6 [5, 1, 0] (by decide),
    h7 5 0 [1, 2, 3, 4, 0] (by decide), h8 5 0 2 [97, 98, 0] (by decide),
    h9 5 0 (List.replicate 17 0) (by decide), h10 [5, 9, 0, 1] (by decide),
    h11 [0] [5, 9, 0, 1] (by decide) (by decide),
    h12 [117] [112] [2] [1] (by decide) (by decide)⟩

/-- C9: the sub-negotiation block of `handle_socks5_proxy` is not total:
with credentials configured and method `0x02` negotiated, for declared
byte values `ulen` (the username length) and `p0` (the byte the code reads
as the password length), the session panics on the out-of-bounds
`split_at_mut` exactly when the 512-byte scratch buffer cannot hold the
split — i.e. when `2 + ulen > 512` or the remaining scratch
`512 - (2 + ulen)` is smaller than `1 + p0`; in particular both lengths
being 255 panics. -/
theorem c9_subneg_panic_iff (u p : List Nat) (dial : String → Nat → Bool)
    (v ulen p0 : Nat) (rest : List Nat) (hu : ulen ≤ 255) (_hp : p0 ≤ 255) :
    (handle_socks5_proxy (some u) (some p) dial
        ([5, 1, 2] ++ v :: ulen :: p0 :: rest)).outcome = S5Outcome.panicked ↔
      (512 < 2 + ulen ∨ 512 - (2 + ulen) < 1 + p0) := by
  rw [handle_socks5_proxy]
  rw [show ([5, 1, 2] ++ v :: ulen :: p0 :: rest) =
    5 :: 1 :: (2 :: v :: ulen :: p0 :: rest) from rfl]
  rw [readExact_cons2]
  dsimp only
  rw [show ([5, 1] : List Nat).getD 0 0 = 5 from rfl,
    show ([5, 1] : List Nat).getD 1 0 = 1 from rfl]
  rw [if_neg (by decide : ¬ ((5 : Nat) ≠ 5))]
  rw [readExact_cons1]
  dsimp only
  rw [show ([2] : List Nat).contains 2 = true from rfl]
  rw [show ((some u).isSome && (some p).isSome) = true from rfl]
  rw [if_pos (rfl : (true : Bool) = true)]
  rw [if_neg (by decide : ¬ ((true : Bool) = false))]
  rw [show (some u).getD [] = u from rfl, show (some p).getD [] = p from rfl]
  rw [s5Subneg_cons u p v ulen p0 rest hu]
  have harith : (510 - ulen < 1 + p0) ↔
      (512 < 2 + ulen ∨ 512 - (2 + ulen) < 1 + p0) := by
    omega
  by_cases hpan : 510 - ulen < 1 + p0
  · rw [if_pos hpan]
    dsimp only
    simp only [harith.mp hpan, iff_true]
  · rw [if_neg hpan]
    have hne : ¬ (512 < 2 + ulen ∨ 512 - (2 + ulen) < 1 + p0) := fun hc =>
      hpan (harith.mpr hc)
    cases hre : readExact p0 rest with
    | none =>
      dsimp only
      simp only [hne, iff_false]
      simp
    | some x =>
      obtain ⟨pw, s3⟩ := x
      dsimp only
      by_cases hcmp : utf8Lossy (List.replicate ulen 0) ≠ u ∨ utf8Lossy pw ≠ p
      · rw [if_pos hcmp]
        dsimp only
        simp only [hne, iff_false]
        simp
      · rw [if_neg hcmp]
        dsimp only
        simp only [hne, iff_false]
        exact s5Request_not_panicked dial s3

theorem c9_subneg_panic_iff_witness :
    (handle_socks5_proxy (some []) (some []) (fun _ _ => false)
        ([5, 1, 2] ++ 1 :: 255 :: 255 :: [])).outcome = S5Outcome.panicked :=
  (c9_subneg_panic_iff [] [] (fun _ _ => false) 1 255 255 []
    (by decide) (by decide)).mpr (by decide)

/-- C7 counterexample: on a credentials-configured listener, the request
`"CONNECT x"` (fewer than three whitespace-delimited tokens) contains no
`Proxy-Authorization` header, yet the session writes nothing at all — the
token-count check at src/main.rs line 219 returns before the
authentication check — instead of the 407 response the claim requires for
every CONNECT request without the header. -/
theorem c7_counterexample :
    handle_http_proxy (some [117]) (some [112]) (fun _ => true) (fun _ => true)
      none (strUtf8 "CONNECT x") = ⟨[], .done⟩ ∧
    ([] : List Nat) ≠ strUtf8 "HTTP/1.1 407 Proxy Authentication Required\r\nProxy-Authenticate: Basic realm=\"Proxy\"\r\n\r\n" :=
  ⟨rfl, by decide⟩

/-- C7 (amended): for every CONNECT request with at least three
whitespace-delimited tokens on a credentials-configured listener whose raw
bytes do not contain the literal `Proxy-Authorization: Basic
<base64(user:pass)>` string, the session writes exactly the 407 challenge
and terminates (`done`, for every dial oracle) without relaying. -/
theorem c7_407_on_missing_auth (u p : List Nat) (dialC uriOk : List Nat → Bool)
    (upstream : Option UpstreamResp) (reqBytes : List Nat)
    (hC : isPrefixOfB (strScalars "CONNECT") (utf8Lossy reqBytes) = true)
    (hT : 3 ≤ (splitWs (utf8Lossy reqBytes)).length)
    (hA : containsSub (authHeaderFor u p) (utf8Lossy reqBytes) = false) :
    handle_http_proxy (some u) (some p) dialC uriOk upstream reqBytes =
      ⟨strUtf8 "HTTP/1.1 407 Proxy Authentication Required\r\nProxy-Authenticate: Basic realm=\"Proxy\"\r\n\r\n",
       .done⟩ := by
  have hne : reqBytes.isEmpty = false := by
    cases reqBytes with
    | nil => exact absurd hC (by decide)
    | cons a t => rfl
  have hT' : ((splitWs (utf8Lossy reqBytes)).length < 3) ↔ False := by
    constructor
    · intro hlt; omega
    · intro hf; exact hf.elim
  simp only [handle_http_proxy, hne, Bool.false_eq_true, if_false, hC,
    if_true, hT', hA, Bool.not_false]

theorem c7_407_on_missing_auth_witness :
    handle_http_proxy (some [117]) (some [112]) (fun _ => true) (fun _ => true)
        none (strUtf8 "CONNECT h:80 HTTP/1.1\r\n\r\n") =
      ⟨strUtf8 "HTTP/1.1 407 Proxy Authentication Required\r\nProxy-Authenticate: Basic realm=\"Proxy\"\r\n\r\n",
       .done⟩ :=
  c7_407_on_missing_auth [117] [112] (fun _ => true) (fun _ => true) none
    (strUtf8 "CONNECT h:80 HTTP/1.1\r\n\r\n") (by decide) (by decide) (by decide)

/-- C8 counterexample: for a non-CONNECT request whose outbound
construction fails (`uriOk` rejects the URI token), the session writes
nothing and returns — `Err(_) => return Ok(())` at src/main.rs line 246 —
instead of the 500 reply the claim requires for construction failures. -/
theorem c8_counterexample :
    handle_http_proxy none none (fun _ => true) (fun _ => false) none
      (strUtf8 "GET x HTTP/1.1") = ⟨[], .done⟩ ∧
    ([] : List Nat) ≠ strUtf8 "HTTP/1.1 500 Internal Server Error\r\n\r\n" :=
  ⟨rfl, by decide⟩

/-- C8 (amended): for a non-CONNECT request with a URI token, a
request-construction failure terminates the session silently (no reply at
all), while a send failure through the HTTP client replies
`500 Internal Server Error` with no body and terminates. -/
theorem c8_silent_then_500 (un pw : Option (List Nat))
    (dialC uriOk : List Nat → Bool) (reqBytes uri : List Nat)
    (hNc : isPrefixOfB (strScalars "CONNECT") (utf8Lossy reqBytes) = false)
    (hU : (splitWs (utf8Lossy reqBytes)).get? 1 = some uri) :
    (uriOk uri = false →
      handle_http_proxy un pw dialC uriOk none reqBytes = ⟨[], .done⟩) ∧
    (uriOk uri = true →
      handle_http_proxy un pw dialC uriOk none reqBytes =
        ⟨strUtf8 "HTTP/1.1 500 Internal Server Error\r\n\r\n", .done⟩) := by
  have hne : reqBytes.isEmpty = false := by
    cases reqBytes with
    | nil =>
      rw [show utf8Lossy [] = [] from rfl] at hU
      rw [show splitWs [] = [] from rfl] at hU
      exact Option.noConfusion hU
    | cons a t => rfl
  constructor
  · intro hu
    simp only [handle_http_proxy, hne, Bool.false_eq_true, if_false, hNc,
      hU, hu, Bool.not_false, if_true]
  · intro hu
    simp only [handle_http_proxy, hne, Bool.false_eq_true, if_false, hNc,
      hU, hu, Bool.not_true, if_false]

theorem c8_silent_then_500_witness :
    handle_http_proxy none none (fun _ => true) (fun _ => false) none
      (strUtf8 "GET y HTTP/1.1") = ⟨[], .done⟩ ∧
    handle_http_proxy none none (fun _ => true) (fun _ => true) none
      (strUtf8 "GET y HTTP/1.1") =
      ⟨strUtf8 "HTTP/1.1 500 Internal Server Error\r\n\r\n", .done⟩ := by
  constructor
  · exact (c8_silent_then_500 none none (fun _ => true) (fun _ => false)
      (strUtf8 "GET y HTTP/1.1") (strScalars "y") (by decide) (by decide)).1 rfl
  · exact (c8_silent_then_500 none none (fun _ => true) (fun _ => true)
      (strUtf8 "GET y HTTP/1.1") (strScalars "y") (by decide) (by decide)).2 rfl

/-- C10: the HTTP proxy handler is not total: a non-CONNECT head with fewer
than two whitespace-delimited tokens (here `"GET"`) panics on
`.nth(1).unwrap()`, and an upstream response carrying a header value that
is not convertible to a string (here the byte `0x0A`) panics on
`to_str().unwrap()` after the status line was already written. -/
theorem c10_http_handler_panics (dialC uriOk : List Nat → Bool)
    (upstream : Option UpstreamResp) (dialC2 : List Nat → Bool) :
    handle_http_proxy none none dialC uriOk upstream (strUtf8 "GET") =
      ⟨[], .panicked⟩ ∧
    handle_http_proxy none none dialC2 (fun _ => true)
        (some ⟨strScalars "200 OK", [([88], [10])], []⟩)
        (strUtf8 "GET http://x HTTP/1.1") =
      ⟨strUtf8 "HTTP/1.1 200 OK\r\n", .panicked⟩ :=
  ⟨rfl, rfl⟩

end Rdnat
